import Mathlib

/-!
Verification of the eufy-adapter device-state synchronization engine
(`pkg/eufy_device.py`) against its natural-language specification.

The Python code is shallowly embedded: the lakeside device handle becomes a
structure, the derived accessors of `EufyBulb` / `EufySwitch` / `EufyDevice`
become pure functions of that structure, property construction becomes an
association list, and the polling loop becomes an explicit step function over
a per-cycle error environment.
-/

/-- The `colors` field of a lakeside device handle.  In Python it may be
missing entirely (`hasattr` fails), present but `None`, or an RGB triple;
the three cases are distinguished explicitly. -/
inductive ColorsField where
  | absent : ColorsField
  | null : ColorsField
  | rgb (r g b : Nat) : ColorsField
deriving DecidableEq, Repr

/-- State of the remote lakeside device handle (`eufy_dev`): model identifier
(`kind`), power flag, brightness, relative temperature, and colors field. -/
structure LakesideDevice where
  kind : String
  power : Bool
  brightness : Nat
  temperature : Int
  colors : ColorsField
deriving DecidableEq, Repr

/-- Uppercase hexadecimal digit character for `n < 16`, as produced by
Python's `X` format conversion. -/
def hexDigit (n : Nat) : Char :=
  if n < 10 then Char.ofNat (48 + n) else Char.ofNat (55 + n)

/-- Fuel-indexed uppercase hexadecimal digit expansion of a natural number
(most significant digit first); `toHexChars` supplies sufficient fuel. -/
def toHexCharsAux : Nat → Nat → List Char
  | 0, _ => []
  | _ + 1, n =>
    if n < 16 then [hexDigit n]
    else toHexCharsAux n (n / 16) ++ [hexDigit (n % 16)]

/-- Uppercase hexadecimal digits of `n`, most significant first; `0` gives
`['0']`. -/
def toHexChars (n : Nat) : List Char :=
  toHexCharsAux (n + 1) n

/-- Zero-pad a digit list on the left to width 2, as Python's `02` format
width specification does. -/
def pad2 (l : List Char) : List Char :=
  if 2 ≤ l.length then l else List.replicate (2 - l.length) '0' ++ l

/-- The character list produced by Python's `'{:02X}'.format(n)`
(the interpolation of one color component). -/
def fmt02X (n : Nat) : List Char :=
  pad2 (toHexChars n)

namespace EufyDevice

/-- `EufyDevice.is_on`: the handle's power flag. -/
def is_on (d : LakesideDevice) : Bool :=
  d.power

end EufyDevice

namespace EufyBulb

/-- `EufyBulb.is_color`: the light is color-changing iff the model
identifier is `"T1013"`. -/
def is_color (d : LakesideDevice) : Bool :=
  d.kind == "T1013"

/-- `EufyBulb.is_variable_color_temp`: the light is color-temp-changing iff
the model identifier is in `['T1012', 'T1013']`. -/
def is_variable_color_temp (d : LakesideDevice) : Bool :=
  d.kind == "T1012" || d.kind == "T1013"

/-- `EufyBulb.color`: `'#000000'` when the handle has no `colors` attribute
or it is `None`; otherwise `'#{:02X}{:02X}{:02X}'.format(*colors)`. -/
def color (d : LakesideDevice) : String :=
  match d.colors with
  | .absent => "#000000"
  | .null => "#000000"
  | .rgb r g b => String.mk ('#' :: (fmt02X r ++ fmt02X g ++ fmt02X b))

/-- `EufyBulb.color_mode`: `'temperature'` when `color()` equals the
sentinel `'#000000'`, else `'color'`. -/
def color_mode (d : LakesideDevice) : String :=
  if color d == "#000000" then "temperature" else "color"

/-- `EufyBulb.brightness`: the handle's brightness field. -/
def brightness (d : LakesideDevice) : Nat :=
  d.brightness

end EufyBulb

/-- Modelled from the spec: `pkg/util.py` (`MIN_TEMPERATURE`) is not under
`src/`; §4.2 and §6 fix only that the Kelvin output range is
`[MIN_TEMPERATURE, MAX_TEMPERATURE]`.  A representative concrete bound is
used so the development stays executable. -/
def MIN_TEMPERATURE : Int := 2700

/-- Modelled from the spec: `pkg/util.py` (`MAX_TEMPERATURE`) is not under
`src/`; see `MIN_TEMPERATURE`. -/
def MAX_TEMPERATURE : Int := 6500

/-- Modelled from the spec: `pkg/util.py` (`relative_temp_to_kelvin`) is not
under `src/`.  §4.2 specifies a deterministic linear mapping from the
vendor's relative scale (taken as `0..100`, the same scale the spec uses for
brightness) to Kelvin in `[MIN_TEMPERATURE, MAX_TEMPERATURE]`, monotonic,
with out-of-range input clamped (the spec's recommended choice). -/
def relative_temp_to_kelvin (t : Int) : Int :=
  let c : Nat := (max 0 (min 100 t)).toNat
  MIN_TEMPERATURE + ((MAX_TEMPERATURE - MIN_TEMPERATURE).toNat * c / 100 : Nat)

namespace EufyBulb

/-- `EufyBulb.color_temp`: `relative_temp_to_kelvin` applied to the handle's
relative temperature field. -/
def color_temp (d : LakesideDevice) : Int :=
  relative_temp_to_kelvin d.temperature

end EufyBulb

/-- A property value published to the gateway registry: boolean, integer, or
string, per the property's declared value type. -/
inductive PropValue where
  | bool (b : Bool) : PropValue
  | int (i : Int) : PropValue
  | str (s : String) : PropValue
deriving DecidableEq, Repr

/-- The name-keyed property map of a device, in insertion order. -/
abbrev Props := List (String × PropValue)

/-- The property map built by `EufySwitch.__init__`: a single `on` property
whose initial value is `self.is_on()`. -/
def switchProps (d : LakesideDevice) : Props :=
  [("on", .bool (EufyDevice.is_on d))]

/-- The property map built by `EufyBulb.__init__`, in the source's insertion
order: `color` if `is_color()`, `colorTemperature` if
`is_variable_color_temp()`, `colorMode` if both, then `level` and `on`,
each initialized from the corresponding derived accessor. -/
def bulbProps (d : LakesideDevice) : Props :=
  (if EufyBulb.is_color d then [("color", PropValue.str (EufyBulb.color d))] else []) ++
  (if EufyBulb.is_variable_color_temp d then
    [("colorTemperature", PropValue.int (EufyBulb.color_temp d))] else []) ++
  (if EufyBulb.is_color d && EufyBulb.is_variable_color_temp d then
    [("colorMode", PropValue.str (EufyBulb.color_mode d))] else []) ++
  [("level", PropValue.int (EufyBulb.brightness d)),
   ("on", PropValue.bool (EufyDevice.is_on d))]

/-- C1: the set of property keys is exactly determined by the model
identifier: a bulb of kind `"T1013"` gets color, colorTemperature,
colorMode, level and on; kind `"T1012"` gets colorTemperature, level and on;
any other bulb kind gets level and on; a switch/plug gets only on. -/
theorem bulbProps_keys_by_kind (d : LakesideDevice) :
    (bulbProps d).map Prod.fst =
      (if d.kind = "T1013" then
        ["color", "colorTemperature", "colorMode", "level", "on"]
      else if d.kind = "T1012" then ["colorTemperature", "level", "on"]
      else ["level", "on"]) ∧
    (switchProps d).map Prod.fst = ["on"] := by
  refine ⟨?_, rfl⟩
  by_cases h13 : d.kind = "T1013"
  · simp [bulbProps, EufyBulb.is_color, EufyBulb.is_variable_color_temp, h13]
  · by_cases h12 : d.kind = "T1012"
    · simp [bulbProps, EufyBulb.is_color, EufyBulb.is_variable_color_temp, h12]
    · simp [bulbProps, EufyBulb.is_color, EufyBulb.is_variable_color_temp, h13, h12]

/-- Value of an uppercase hexadecimal digit character (`0`-`9`, `A`-`F`);
`none` for any other character. -/
def hexVal? (c : Char) : Option Nat :=
  if 48 ≤ c.toNat ∧ c.toNat ≤ 57 then some (c.toNat - 48)
  else if 65 ≤ c.toNat ∧ c.toNat ≤ 70 then some (c.toNat - 55)
  else none

/-- Parse a 7-character uppercase `#RRGGBB` color string back into its RGB
triple; `none` when the string is not of that shape. -/
def decodeColor (s : String) : Option (Nat × Nat × Nat) :=
  match s.data with
  | ['#', c1, c2, c3, c4, c5, c6] =>
    match hexVal? c1, hexVal? c2, hexVal? c3, hexVal? c4, hexVal? c5, hexVal? c6 with
    | some a, some b, some c, some d, some e, some f =>
      some (16 * a + b, 16 * c + d, 16 * e + f)
    | _, _, _, _, _, _ => none
  | _ => none

theorem toHexCharsAux_small (f n : Nat) (h : n < 16) :
    toHexCharsAux (f + 1) n = [hexDigit n] := by
  simp [toHexCharsAux, h]

theorem fmt02X_byte (n : Nat) (h : n ≤ 255) :
    fmt02X n = [hexDigit (n / 16), hexDigit (n % 16)] := by
  by_cases h16 : n < 16
  · have hd : n / 16 = 0 := Nat.div_eq_of_lt h16
    have hm : n % 16 = n := Nat.mod_eq_of_lt h16
    rw [fmt02X, toHexChars, toHexCharsAux_small n n h16]
    simp [pad2, hd, hm, hexDigit, List.replicate]
  · obtain ⟨f, rfl⟩ : ∃ f, n = f + 1 := ⟨n - 1, by omega⟩
    have hq : (f + 1) / 16 < 16 := by omega
    rw [fmt02X, toHexChars]
    rw [show toHexCharsAux (f + 1 + 1) (f + 1)
        = toHexCharsAux (f + 1) ((f + 1) / 16) ++ [hexDigit ((f + 1) % 16)] by
      simp [toHexCharsAux, h16]]
    obtain ⟨g, hg⟩ : ∃ g, f = g + 1 := ⟨f - 1, by omega⟩
    rw [hg, toHexCharsAux_small (g + 1) ((g + 1 + 1) / 16) (by omega)]
    simp [pad2]

theorem hexVal_hexDigit : ∀ n : Nat, n < 16 → hexVal? (hexDigit n) = some n := by
  decide

theorem decodeColor_explicit (c1 c2 c3 c4 c5 c6 : Char) (v1 v2 v3 v4 v5 v6 : Nat)
    (h1 : hexVal? c1 = some v1) (h2 : hexVal? c2 = some v2)
    (h3 : hexVal? c3 = some v3) (h4 : hexVal? c4 = some v4)
    (h5 : hexVal? c5 = some v5) (h6 : hexVal? c6 = some v6) :
    decodeColor (String.mk ['#', c1, c2, c3, c4, c5, c6]) =
      some (16 * v1 + v2, 16 * v3 + v4, 16 * v5 + v6) := by
  simp [decodeColor, h1, h2, h3, h4, h5, h6]

/-- C4: for every handle state, `color_mode()` returns `"temperature"` iff
`color()` returns the sentinel `"#000000"`, and returns `"color"` exactly
otherwise. -/
theorem color_mode_iff_sentinel (d : LakesideDevice) :
    (EufyBulb.color_mode d = "temperature" ↔ EufyBulb.color d = "#000000") ∧
    (EufyBulb.color_mode d = "color" ↔ EufyBulb.color d ≠ "#000000") := by
  have hne : ("temperature" : String) ≠ "color" := by decide
  by_cases h : EufyBulb.color d = "#000000" <;>
    simp [EufyBulb.color_mode, h, hne, hne.symm]

/-- C10: `color()` returns the sentinel `"#000000"` both when the handle's
`colors` field is `None` and when the handle has no `colors` attribute at
all, and `color_mode()` is then `"temperature"`. -/
theorem color_sentinel_when_colors_missing (d : LakesideDevice)
    (h : d.colors = ColorsField.absent ∨ d.colors = ColorsField.null) :
    EufyBulb.color d = "#000000" ∧ EufyBulb.color_mode d = "temperature" := by
  have hc : EufyBulb.color d = "#000000" := by
    rcases h with h | h <;> simp [EufyBulb.color, h]
  exact ⟨hc, by simp [EufyBulb.color_mode, hc]⟩

/-- A color bulb handle whose colors attribute is missing. -/
def devNoColors : LakesideDevice :=
  ⟨"T1013", true, 50, 50, ColorsField.absent⟩

theorem color_sentinel_when_colors_missing_witness :
    EufyBulb.color devNoColors = "#000000" ∧
    EufyBulb.color_mode devNoColors = "temperature" :=
  color_sentinel_when_colors_missing devNoColors (Or.inl rfl)

/-- C6: a handle reporting `colors = (255, 0, 0)` yields
`color() = "#FF0000"` and `color_mode() = "color"`; a handle reporting
`colors = None` yields `color() = "#000000"` and
`color_mode() = "temperature"`; and for every triple with components in
`[0, 255]`, `color()` is the 7-character uppercase `#RRGGBB` hex encoding
of the triple (it decodes back to exactly that triple). -/
theorem color_encoding (d : LakesideDevice) :
    (d.colors = ColorsField.rgb 255 0 0 →
      EufyBulb.color d = "#FF0000" ∧ EufyBulb.color_mode d = "color") ∧
    (d.colors = ColorsField.null →
      EufyBulb.color d = "#000000" ∧ EufyBulb.color_mode d = "temperature") ∧
    (∀ r g b : Nat, d.colors = ColorsField.rgb r g b →
      r ≤ 255 → g ≤ 255 → b ≤ 255 →
      (EufyBulb.color d).length = 7 ∧
      decodeColor (EufyBulb.color d) = some (r, g, b)) := by
  refine ⟨?_, ?_, ?_⟩
  · intro h
    have h255 : fmt02X 255 = ['F', 'F'] := by
      rw [fmt02X_byte 255 (by norm_num)]
      rfl
    have h0 : fmt02X 0 = ['0', '0'] := by
      rw [fmt02X_byte 0 (by norm_num)]
      rfl
    have hc : EufyBulb.color d = "#FF0000" := by
      simp only [EufyBulb.color, h, h255, h0]
      rfl
    refine ⟨hc, ?_⟩
    unfold EufyBulb.color_mode
    rw [hc]
    decide
  · intro h
    have hc : EufyBulb.color d = "#000000" := by
      unfold EufyBulb.color
      rw [h]
    exact ⟨hc, by simp [EufyBulb.color_mode, hc]⟩
  · intro r g b h hr hg hb
    have hdata : EufyBulb.color d =
        String.mk ('#' :: (fmt02X r ++ fmt02X g ++ fmt02X b)) := by
      unfold EufyBulb.color
      rw [h]
    have hlist : EufyBulb.color d = String.mk
        ['#', hexDigit (r / 16), hexDigit (r % 16),
         hexDigit (g / 16), hexDigit (g % 16),
         hexDigit (b / 16), hexDigit (b % 16)] := by
      rw [hdata, fmt02X_byte r hr, fmt02X_byte g hg, fmt02X_byte b hb]
      rfl
    constructor
    · rw [hlist]
      rfl
    · rw [hlist,
        decodeColor_explicit _ _ _ _ _ _ (r / 16) (r % 16) (g / 16) (g % 16)
          (b / 16) (b % 16)
          (hexVal_hexDigit _ (by omega)) (hexVal_hexDigit _ (by omega))
          (hexVal_hexDigit _ (by omega)) (hexVal_hexDigit _ (by omega))
          (hexVal_hexDigit _ (by omega)) (hexVal_hexDigit _ (by omega))]
      have er : 16 * (r / 16) + r % 16 = r := by omega
      have eg : 16 * (g / 16) + g % 16 = g := by omega
      have eb : 16 * (b / 16) + b % 16 = b := by omega
      rw [er, eg, eb]

/-- A full-color bulb handle reporting red. -/
def devRed : LakesideDevice :=
  ⟨"T1013", true, 50, 50, ColorsField.rgb 255 0 0⟩

/-- A full-color bulb handle whose colors attribute is `None`. -/
def devNullColors : LakesideDevice :=
  ⟨"T1013", true, 50, 50, ColorsField.null⟩

theorem color_encoding_witness :
    (EufyBulb.color devRed = "#FF0000" ∧ EufyBulb.color_mode devRed = "color") ∧
    (EufyBulb.color devNullColors = "#000000" ∧
      EufyBulb.color_mode devNullColors = "temperature") ∧
    ((EufyBulb.color devRed).length = 7 ∧
      decodeColor (EufyBulb.color devRed) = some (255, 0, 0)) :=
  ⟨(color_encoding devRed).1 rfl,
   (color_encoding devNullColors).2.1 rfl,
   (color_encoding devRed).2.2 255 0 0 rfl (by decide) (by decide) (by decide)⟩

/-- C9: the relative-to-Kelvin conversion used by `color_temp()` is
monotonic, and its output always lies in
`[MIN_TEMPERATURE, MAX_TEMPERATURE]`, out-of-range inputs included
(they are clamped). -/
theorem relative_temp_to_kelvin_monotone_bounded :
    (∀ t1 t2 : Int, t1 ≤ t2 →
      relative_temp_to_kelvin t1 ≤ relative_temp_to_kelvin t2) ∧
    (∀ t : Int, MIN_TEMPERATURE ≤ relative_temp_to_kelvin t ∧
      relative_temp_to_kelvin t ≤ MAX_TEMPERATURE) := by
  have he : ((6500 - 2700 : Int)).toNat = 3800 := rfl
  constructor
  · intro t1 t2 h
    simp only [relative_temp_to_kelvin, MIN_TEMPERATURE, MAX_TEMPERATURE]
    rw [he]
    omega
  · intro t
    simp only [relative_temp_to_kelvin, MIN_TEMPERATURE, MAX_TEMPERATURE]
    rw [he]
    omega

theorem relative_temp_to_kelvin_monotone_bounded_witness :
    relative_temp_to_kelvin 0 ≤ relative_temp_to_kelvin 50 ∧
    MIN_TEMPERATURE ≤ relative_temp_to_kelvin 200 ∧
    relative_temp_to_kelvin 200 ≤ MAX_TEMPERATURE :=
  ⟨relative_temp_to_kelvin_monotone_bounded.1 0 50 (by norm_num),
   relative_temp_to_kelvin_monotone_bounded.2 200⟩

/-- Python exception classes relevant to `poll`'s handlers:
`BrokenPipeError` is a subclass of `OSError`; other `OSError`s and
non-`OSError` exceptions behave differently under the two `except` clauses. -/
inductive PyErr where
  | brokenPipe : PyErr
  | otherOSError : PyErr
  | nonOSError : PyErr
deriving DecidableEq, Repr

/-- Whether an exception is caught by `except OSError` (`BrokenPipeError`
is an `OSError` subclass, so it is). -/
def PyErr.isOSError : PyErr → Bool
  | .brokenPipe => true
  | .otherOSError => true
  | .nonOSError => false

/-- Whether an exception is caught by `except BrokenPipeError`. -/
def PyErr.isBrokenPipe : PyErr → Bool
  | .brokenPipe => true
  | _ => false

/-- Modelled from the spec: `pkg/eufy_property.py` (`EufyBulbProperty` /
`EufySwitchProperty`) is not under `src/`.  Per §4.3, a Property Mirror's
`readCurrentValue()` reads the field bound to the property from the Remote
Device Handle, applying the needed conversion; the binding is by property
name. -/
def readCurrentValue (d : LakesideDevice) (name : String) : PropValue :=
  if name = "on" then .bool (EufyDevice.is_on d)
  else if name = "level" then .int (EufyBulb.brightness d)
  else if name = "color" then .str (EufyBulb.color d)
  else if name = "colorTemperature" then .int (EufyBulb.color_temp d)
  else if name = "colorMode" then .str (EufyBulb.color_mode d)
  else .bool false

/-- Modelled from the spec: per §4.3, a refresh pass re-reads every owned
property's current value from the handle (publishing on change), so after
the pass every mirror holds the value derived from the handle. -/
def refreshAll (d : LakesideDevice) (props : Props) : Props :=
  props.map fun p => (p.1, readCurrentValue d p.1)

/-- Observable events of one iteration of the polling loop body. -/
inductive Ev where
  | updateAttempt : Ev
  | updateOk : Ev
  | connectAttempt : Ev
  | connectOk : Ev
  | propRefresh (name : String) : Ev
deriving DecidableEq, Repr

/-- Whether an event is a Property Mirror refresh. -/
def Ev.isRefresh : Ev → Bool
  | .propRefresh _ => true
  | _ => false

/-- Result of one iteration of the polling loop body: completed with
refreshed properties, skipped by `continue` keeping the old properties, or
an uncaught exception propagating out of the loop. -/
inductive CycleOutcome where
  | completed (props : Props) : CycleOutcome
  | skipped (props : Props) : CycleOutcome
  | raised (e : PyErr) (props : Props) : CycleOutcome
deriving DecidableEq, Repr

/-- Whether the cycle reached the property-refresh loop. -/
def CycleOutcome.isCompleted : CycleOutcome → Bool
  | .completed _ => true
  | _ => false

/-- Whether the cycle ended in an uncaught exception. -/
def CycleOutcome.isRaised : CycleOutcome → Bool
  | .raised _ _ => true
  | _ => false

/-- The I/O behaviour the transport exhibits during one poll cycle: the
exception (if any) raised by the first `update()`, by the recovery
`connect()`, and by the recovery `update()`. -/
structure CycleEnv where
  u1 : Option PyErr
  c : Option PyErr
  u2 : Option PyErr
deriving DecidableEq, Repr

/-- One iteration of `EufyDevice.poll`'s `while True` body, after the
sleep: `try: update() except BrokenPipeError: try: connect(); update()
except OSError: continue`, then `prop.update()` for every owned property.
Returns the outcome together with the event trace of the iteration. -/
def pollCycle (env : CycleEnv) (d : LakesideDevice) (props : Props) :
    CycleOutcome × List Ev :=
  match env.u1 with
  | none =>
    (.completed (refreshAll d props),
     [.updateAttempt, .updateOk] ++ props.map fun p => Ev.propRefresh p.1)
  | some e =>
    if e.isBrokenPipe then
      match env.c with
      | some e' =>
        if e'.isOSError then (.skipped props, [.updateAttempt, .connectAttempt])
        else (.raised e' props, [.updateAttempt, .connectAttempt])
      | none =>
        match env.u2 with
        | none =>
          (.completed (refreshAll d props),
           [.updateAttempt, .connectAttempt, .connectOk, .updateAttempt,
            .updateOk] ++ props.map fun p => Ev.propRefresh p.1)
        | some e' =>
          if e'.isOSError then
            (.skipped props,
             [.updateAttempt, .connectAttempt, .connectOk, .updateAttempt])
          else
            (.raised e' props,
             [.updateAttempt, .connectAttempt, .connectOk, .updateAttempt])
    else (.raised e props, [.updateAttempt])

/-- The polling thread: still looping with the current property values, or
terminated by an exception that escaped the loop body. -/
inductive LoopState where
  | alive (props : Props) : LoopState
  | dead (e : PyErr) (props : Props) : LoopState
deriving DecidableEq, Repr

/-- One turn of the `while True` loop applied to a loop state. -/
def loopStep (env : CycleEnv) (d : LakesideDevice) : LoopState → LoopState
  | .alive props =>
    match (pollCycle env d props).1 with
    | .completed p => .alive p
    | .skipped p => .alive p
    | .raised e p => .dead e p
  | .dead e p => .dead e p

/-- The polling loop run for `n` cycles against a stream of per-cycle
transport behaviours. -/
def loopRun (env : Nat → CycleEnv) (d : LakesideDevice) (props : Props) :
    Nat → LoopState
  | 0 => .alive props
  | n + 1 => loopStep (env n) d (loopRun env d props n)

/-- C2 fails as stated: `except BrokenPipeError` does not catch a plain
`OSError` raised by the first `update()` of a cycle, so that I/O error
escapes the loop body and kills the polling thread — the loop does not
merely skip the cycle.  Shown at a concrete input: a switch with one
property whose first `update()` raises a non-broken-pipe `OSError`. -/
theorem pollCycle_oserror_crashes_loop :
    (pollCycle ⟨some PyErr.otherOSError, none, none⟩ devRed
        [("on", PropValue.bool true)]).1
      = CycleOutcome.raised PyErr.otherOSError [("on", PropValue.bool true)] ∧
    PyErr.isOSError PyErr.otherOSError = true ∧
    loopRun (fun _ => ⟨some PyErr.otherOSError, none, none⟩) devRed
        [("on", PropValue.bool true)] 1
      = LoopState.dead PyErr.otherOSError [("on", PropValue.bool true)] := by
  refine ⟨?_, rfl, ?_⟩ <;> simp [pollCycle, loopRun, loopStep, PyErr.isBrokenPipe]

/-- C2 amended: the loop survives every cycle in which the first `update()`
either succeeds or raises a broken-pipe error and the recovery raises (if
anything) only `OSError`s: such a cycle at most skips, keeping the
last-known values, and the loop stays alive for any number of intervals.
A non-broken-pipe I/O error from the first `update()` is not caught. -/
theorem poll_loop_survives_when_update_errors_are_brokenPipe :
    (∀ (c u2 : Option PyErr) (d : LakesideDevice) (props : Props),
      (∀ e, c = some e → e.isOSError = true) →
      (∀ e, u2 = some e → e.isOSError = true) →
      (pollCycle ⟨some PyErr.brokenPipe, c, u2⟩ d props).1
          = CycleOutcome.completed (refreshAll d props) ∨
      (pollCycle ⟨some PyErr.brokenPipe, c, u2⟩ d props).1
          = CycleOutcome.skipped props) ∧
    (∀ (env : Nat → CycleEnv) (d : LakesideDevice) (props : Props) (n : Nat),
      (∀ i, (env i).u1 = none ∨ (env i).u1 = some PyErr.brokenPipe) →
      (∀ i e, (env i).c = some e → e.isOSError = true) →
      (∀ i e, (env i).u2 = some e → e.isOSError = true) →
      ∃ p, loopRun env d props n = LoopState.alive p) := by
  have cycle_ok : ∀ (c u2 : Option PyErr) (d : LakesideDevice) (props : Props),
      (∀ e, c = some e → e.isOSError = true) →
      (∀ e, u2 = some e → e.isOSError = true) →
      (pollCycle ⟨some PyErr.brokenPipe, c, u2⟩ d props).1
          = CycleOutcome.completed (refreshAll d props) ∨
      (pollCycle ⟨some PyErr.brokenPipe, c, u2⟩ d props).1
          = CycleOutcome.skipped props := by
    intro c u2 d props hc hu2
    rcases c with _ | e
    · rcases u2 with _ | e
      · left
        simp [pollCycle, PyErr.isBrokenPipe]
      · right
        simp [pollCycle, PyErr.isBrokenPipe, hu2 e rfl]
    · right
      simp [pollCycle, PyErr.isBrokenPipe, hc e rfl]
  refine ⟨cycle_ok, ?_⟩
  intro env d props n h1 hc hu2
  induction n with
  | zero => exact ⟨props, rfl⟩
  | succ n ih =>
    obtain ⟨p, hp⟩ := ih
    rw [loopRun, hp]
    rcases h1 n with h | h
    · exact ⟨refreshAll d p, by simp [loopStep, pollCycle, h]⟩
    · rcases cycle_ok (env n).c (env n).u2 d p (hc n) (hu2 n) with hcyc | hcyc
      · refine ⟨refreshAll d p, ?_⟩
        rw [loopStep]
        rw [show (⟨some PyErr.brokenPipe, (env n).c, (env n).u2⟩ : CycleEnv)
            = env n by cases hn : env n; simp_all] at hcyc
        rw [hcyc]
      · refine ⟨p, ?_⟩
        rw [loopStep]
        rw [show (⟨some PyErr.brokenPipe, (env n).c, (env n).u2⟩ : CycleEnv)
            = env n by cases hn : env n; simp_all] at hcyc
        rw [hcyc]

theorem poll_loop_survives_witness :
    ((pollCycle ⟨some PyErr.brokenPipe, none, some PyErr.otherOSError⟩ devRed
        [("on", PropValue.bool true)]).1
      = CycleOutcome.completed
          (refreshAll devRed [("on", PropValue.bool true)]) ∨
      (pollCycle ⟨some PyErr.brokenPipe, none, some PyErr.otherOSError⟩ devRed
        [("on", PropValue.bool true)]).1
      = CycleOutcome.skipped [("on", PropValue.bool true)]) ∧
    (∃ p, loopRun (fun _ => ⟨some PyErr.brokenPipe, none, none⟩) devRed
        [("on", PropValue.bool true)] 3 = LoopState.alive p) :=
  ⟨poll_loop_survives_when_update_errors_are_brokenPipe.1 none
      (some PyErr.otherOSError) devRed [("on", PropValue.bool true)]
      (fun e h => by cases h) (fun e h => by cases h; rfl),
   poll_loop_survives_when_update_errors_are_brokenPipe.2
      (fun _ => ⟨some PyErr.brokenPipe, none, none⟩) devRed
      [("on", PropValue.bool true)] 3
      (fun _ => Or.inr rfl) (fun _ e h => by cases h) (fun _ e h => by cases h)⟩

/-- C3: in a cycle where the first `update()` raises broken pipe and the
recovery `connect()` + `update()` succeeds, the cycle completes with every
owned property refreshed from the handle and no error surfaced; in a cycle
where the recovery fails with an I/O error (`OSError`, from either recovery
call), the cycle ends skipped — properties unchanged, no refresh event, no
crash. -/
theorem broken_pipe_recovery (d : LakesideDevice) (props : Props) :
    ((pollCycle ⟨some PyErr.brokenPipe, none, none⟩ d props).1
        = CycleOutcome.completed (refreshAll d props) ∧
      ∀ p ∈ props, Ev.propRefresh p.1
        ∈ (pollCycle ⟨some PyErr.brokenPipe, none, none⟩ d props).2) ∧
    (∀ c u2 : Option PyErr,
      ((∃ e, c = some e ∧ e.isOSError = true) ∨
        (c = none ∧ ∃ e, u2 = some e ∧ e.isOSError = true)) →
      (pollCycle ⟨some PyErr.brokenPipe, c, u2⟩ d props).1
          = CycleOutcome.skipped props ∧
      ∀ ev ∈ (pollCycle ⟨some PyErr.brokenPipe, c, u2⟩ d props).2,
        ev.isRefresh = false) := by
  constructor
  · constructor
    · simp [pollCycle, PyErr.isBrokenPipe]
    · intro p hp
      simp [pollCycle, PyErr.isBrokenPipe]
      exact ⟨p.2, hp⟩
  · rintro c u2 (⟨e, rfl, he⟩ | ⟨rfl, e, rfl, he⟩)
    · constructor
      · simp [pollCycle, PyErr.isBrokenPipe, he]
      · intro ev hev
        simp [pollCycle, PyErr.isBrokenPipe, he] at hev
        rcases hev with rfl | rfl <;> rfl
    · constructor
      · simp [pollCycle, PyErr.isBrokenPipe, he]
      · intro ev hev
        simp [pollCycle, PyErr.isBrokenPipe, he] at hev
        rcases hev with rfl | rfl | rfl | rfl <;> rfl

theorem broken_pipe_recovery_witness :
    Ev.propRefresh "on"
      ∈ (pollCycle ⟨some PyErr.brokenPipe, none, none⟩ devRed
          [("on", PropValue.bool true)]).2 ∧
    (pollCycle ⟨some PyErr.brokenPipe, some PyErr.otherOSError, none⟩ devRed
        [("on", PropValue.bool true)]).1
      = CycleOutcome.skipped [("on", PropValue.bool true)] :=
  ⟨(broken_pipe_recovery devRed [("on", PropValue.bool true)]).1.2
      ("on", PropValue.bool true) (List.mem_singleton.mpr rfl),
   ((broken_pipe_recovery devRed [("on", PropValue.bool true)]).2
      (some PyErr.otherOSError) none
      (Or.inl ⟨PyErr.otherOSError, rfl, rfl⟩)).1⟩

/-- C7: in every poll cycle the trace splits as a refresh-free prefix
followed by the property refreshes, which are present exactly when the
cycle completed a successful `update()`; when they are present the event
immediately preceding them is that successful `update()`.  So property
refreshes run only after `update()` has completed, never before it and
never interleaved with it. -/
theorem refresh_only_after_update (env : CycleEnv) (d : LakesideDevice)
    (props : Props) :
    ∃ pre : List Ev,
      (pollCycle env d props).2
        = pre ++ (if (pollCycle env d props).1.isCompleted
            then props.map fun p => Ev.propRefresh p.1 else []) ∧
      (∀ e ∈ pre, e.isRefresh = false) ∧
      ((pollCycle env d props).1.isCompleted = true →
        pre.getLast? = some Ev.updateOk) := by
  obtain ⟨u1, c, u2⟩ := env
  rcases u1 with _ | e
  · refine ⟨[.updateAttempt, .updateOk], ?_, ?_, fun _ => rfl⟩
    · simp [pollCycle, CycleOutcome.isCompleted]
    · intro e he
      fin_cases he <;> rfl
  · rcases he : e.isBrokenPipe with _ | _
    · refine ⟨[.updateAttempt], ?_, ?_, ?_⟩
      · simp [pollCycle, he, CycleOutcome.isCompleted]
      · intro ev hev
        fin_cases hev
        rfl
      · intro hcomp
        simp [pollCycle, he, CycleOutcome.isCompleted] at hcomp
    · rcases c with _ | e'
      · rcases u2 with _ | e'
        · refine ⟨[.updateAttempt, .connectAttempt, .connectOk, .updateAttempt,
            .updateOk], ?_, ?_, fun _ => rfl⟩
          · simp [pollCycle, he, CycleOutcome.isCompleted]
          · intro ev hev
            fin_cases hev <;> rfl
        · refine ⟨[.updateAttempt, .connectAttempt, .connectOk,
            .updateAttempt], ?_, ?_, ?_⟩
          · rcases ho : e'.isOSError with _ | _ <;>
              simp [pollCycle, he, ho, CycleOutcome.isCompleted]
          · intro ev hev
            fin_cases hev <;> rfl
          · intro hcomp
            rcases ho : e'.isOSError with _ | _ <;>
              simp [pollCycle, he, ho, CycleOutcome.isCompleted] at hcomp
      · refine ⟨[.updateAttempt, .connectAttempt], ?_, ?_, ?_⟩
        · rcases ho : e'.isOSError with _ | _ <;>
            simp [pollCycle, he, ho, CycleOutcome.isCompleted]
        · intro ev hev
          fin_cases hev <;> rfl
        · intro hcomp
          rcases ho : e'.isOSError with _ | _ <;>
            simp [pollCycle, he, ho, CycleOutcome.isCompleted] at hcomp

/-- C5: immediately after construction, the value stored in each
constructed property equals the value derived from the handle's state at
that instant: the power flag for `on`, brightness for `level`, the hex
string for `color`, the converted Kelvin value for `colorTemperature`, and
the derived mode for `colorMode`; likewise for a switch's `on`. -/
theorem initial_values_match_handle (d : LakesideDevice) :
    (bulbProps d).lookup "on" = some (.bool (EufyDevice.is_on d)) ∧
    (bulbProps d).lookup "level" = some (.int (EufyBulb.brightness d)) ∧
    (EufyBulb.is_color d = true →
      (bulbProps d).lookup "color" = some (.str (EufyBulb.color d))) ∧
    (EufyBulb.is_variable_color_temp d = true →
      (bulbProps d).lookup "colorTemperature"
        = some (.int (EufyBulb.color_temp d))) ∧
    (EufyBulb.is_color d = true ∧ EufyBulb.is_variable_color_temp d = true →
      (bulbProps d).lookup "colorMode"
        = some (.str (EufyBulb.color_mode d))) ∧
    (switchProps d).lookup "on" = some (.bool (EufyDevice.is_on d)) := by
  rcases hc : EufyBulb.is_color d with _ | _ <;>
    rcases hv : EufyBulb.is_variable_color_temp d with _ | _ <;>
      simp [bulbProps, switchProps, hc, hv, List.lookup]

theorem initial_values_match_handle_witness :
    (bulbProps devRed).lookup "color"
      = some (.str (EufyBulb.color devRed)) ∧
    (bulbProps devRed).lookup "colorTemperature"
      = some (.int (EufyBulb.color_temp devRed)) ∧
    (bulbProps devRed).lookup "colorMode"
      = some (.str (EufyBulb.color_mode devRed)) :=
  ⟨(initial_values_match_handle devRed).2.2.1 rfl,
   (initial_values_match_handle devRed).2.2.2.1 rfl,
   (initial_values_match_handle devRed).2.2.2.2.1 ⟨rfl, rfl⟩⟩

/-- Steps of device construction observable from outside:
`EufyDevice.__init__` calls `connect()` then `update()`; only afterwards
does the subclass constructor build and publish the properties. -/
inductive InitEv where
  | connectCall : InitEv
  | updateCall : InitEv
  | propsPublished : InitEv
deriving DecidableEq, Repr

/-- Device construction: `self.eufy_dev.connect()` then
`self.eufy_dev.update()` run synchronously inside `EufyDevice.__init__`; an
exception from either propagates out of the constructor (`Except.error`)
before any property is built, and only when both succeed does the subclass
constructor attach its property map. -/
def initDevice (cRes uRes : Option PyErr) (props : Props) :
    Except PyErr Props × List InitEv :=
  match cRes with
  | some e => (.error e, [.connectCall])
  | none =>
    match uRes with
    | some e => (.error e, [.connectCall, .updateCall])
    | none => (.ok props, [.connectCall, .updateCall, .propsPublished])

/-- C8: initialization calls `connect()` then `update()` synchronously
before any property is constructed; if either call fails the error
propagates to the caller and no properties are registered (the trace never
reaches `propsPublished`), and on success the properties are published only
after both calls, in that order. -/
theorem init_fail_fast (cRes uRes : Option PyErr) (d : LakesideDevice) :
    (cRes = none ∧ uRes = none →
      initDevice cRes uRes (bulbProps d)
        = (.ok (bulbProps d),
           [.connectCall, .updateCall, .propsPublished])) ∧
    (∀ e, cRes = some e →
      initDevice cRes uRes (bulbProps d)
        = (.error e, [.connectCall])) ∧
    (∀ e, cRes = none → uRes = some e →
      initDevice cRes uRes (bulbProps d)
        = (.error e, [.connectCall, .updateCall])) := by
  refine ⟨?_, ?_, ?_⟩
  · rintro ⟨rfl, rfl⟩
    rfl
  · rintro e rfl
    rfl
  · rintro e rfl rfl
    rfl

theorem init_fail_fast_witness :
    initDevice none none (bulbProps devRed)
      = (.ok (bulbProps devRed),
         [.connectCall, .updateCall, .propsPublished]) ∧
    initDevice (some PyErr.otherOSError) none (bulbProps devRed)
      = (.error PyErr.otherOSError, [.connectCall]) ∧
    initDevice none (some PyErr.brokenPipe) (bulbProps devRed)
      = (.error PyErr.brokenPipe, [.connectCall, .updateCall]) :=
  ⟨(init_fail_fast none none devRed).1 ⟨rfl, rfl⟩,
   (init_fail_fast (some PyErr.otherOSError) none devRed).2.1
      PyErr.otherOSError rfl,
   (init_fail_fast none (some PyErr.brokenPipe) devRed).2.2
      PyErr.brokenPipe rfl rfl⟩

theorem refresh_only_after_update_witness :
    ∃ pre : List Ev,
      (pollCycle ⟨none, none, none⟩ devRed [("on", PropValue.bool true)]).2
        = pre ++ (if (pollCycle ⟨none, none, none⟩ devRed
              [("on", PropValue.bool true)]).1.isCompleted
            then [("on", PropValue.bool true)].map fun p => Ev.propRefresh p.1
            else []) ∧
      (∀ e ∈ pre, e.isRefresh = false) ∧
      ((pollCycle ⟨none, none, none⟩ devRed
          [("on", PropValue.bool true)]).1.isCompleted = true →
        pre.getLast? = some Ev.updateOk) :=
  refresh_only_after_update ⟨none, none, none⟩ devRed
    [("on", PropValue.bool true)]
